import Mathlib

/-!
Verification of the Sensor_Gateway data plane against its specification.

The definitions below are a shallow embedding of the C sources under
src/Sensor_Gateway/src.  Machine integers are modelled as Nat or Int,
C doubles as rationals, fallible calls return Option or a result code,
and the stateful modules are modelled by explicit state passing.
-/

namespace SensorGateway

/-! Section: Data model (common.h, config.h) -/

/-- Embedding of sensor_data_t from common.h: (uint16_t id, double value,
time_t ts). The double is modelled as a rational, time_t as an integer. -/
structure sensor_data_t where
  id : Nat
  value : ℚ
  ts : Int
deriving DecidableEq

/-- Embedding of the gateway_error_t enum from common.h (only the
constructors the verified modules mention). -/
inductive gateway_error_t where
  | GATEWAY_SUCCESS
  | GATEWAY_ERROR
  | GATEWAY_ERROR_NOMEM
  | GATEWAY_ERROR_INVALID_ARG
  | SBUFFER_EMPTY
  | SBUFFER_SHUTDOWN
deriving DecidableEq

/-- Log levels of logger.h. -/
inductive log_level where
  | FATAL
  | ERROR
  | WARNING
  | INFO
  | DEBUG
deriving DecidableEq

/-- SBUFFER_SIZE from config.h. -/
def SBUFFER_SIZE : Nat := 15

/-- SENSOR_TIMEOUT_SEC from config.h (seconds, compared against time_t
differences, hence an integer here). -/
def SENSOR_TIMEOUT_SEC : Int := 5

/-! Section: Generic circular-queue contents

Both sbuffer.c and the storage retry queue are fixed-capacity circular
arrays with a read index, a write index and a count.  `cq_contents arr cap
read cnt` lists the live elements from oldest to newest. -/

/-- Live elements of a circular array, oldest first: positions
(read + i) % cap for i < cnt. -/
def cq_contents (arr : Nat → sensor_data_t) (cap read cnt : Nat) :
    List sensor_data_t :=
  (List.range cnt).map (fun i => arr ((read + i) % cap))

theorem cq_index_ne {cap i cnt read : Nat} (hi : i < cnt) (hcnt : cnt < cap) :
    (read + i) % cap ≠ (read + cnt) % cap := by
  intro h
  have hmod : i ≡ cnt [MOD cap] := Nat.ModEq.add_left_cancel' read h
  have h1 : i % cap = cnt % cap := hmod
  rw [Nat.mod_eq_of_lt (lt_trans hi hcnt), Nat.mod_eq_of_lt hcnt] at h1
  exact absurd h1 (Nat.ne_of_lt hi)

theorem cq_contents_push (arr : Nat → sensor_data_t) (cap read cnt : Nat)
    (d : sensor_data_t) (hcnt : cnt < cap) :
    cq_contents (fun j => if j = (read + cnt) % cap then d else arr j)
      cap read (cnt + 1)
      = cq_contents arr cap read cnt ++ [d] := by
  unfold cq_contents
  rw [List.range_succ, List.map_append]
  congr 1
  · apply List.map_congr_left
    intro i hi
    rw [List.mem_range] at hi
    simp only [if_neg (cq_index_ne hi hcnt)]
  · simp

theorem cq_contents_pop (arr : Nat → sensor_data_t) (cap read cnt : Nat)
    (hread : read < cap) :
    cq_contents arr cap read (cnt + 1)
      = arr read :: cq_contents arr cap ((read + 1) % cap) cnt := by
  unfold cq_contents
  rw [List.range_succ_eq_map, List.map_cons]
  congr 1
  · rw [Nat.add_zero, Nat.mod_eq_of_lt hread]
  · rw [List.map_map]
    apply List.map_congr_left
    intro i _
    simp only [Function.comp, Nat.succ_eq_add_one]
    rw [Nat.mod_add_mod]
    have h5 : read + 1 + i = read + (i + 1) := by omega
    rw [h5]

theorem cq_contents_length (arr : Nat → sensor_data_t) (cap read cnt : Nat) :
    (cq_contents arr cap read cnt).length = cnt := by
  unfold cq_contents
  rw [List.length_map, List.length_range]

/-! Section: Shared buffer (sbuffer.c)

The sbuffer_t struct of sbuffer.h, without the pthread primitives: the
mutex and the condition variables have no effect on the data fields, and
the blocking points of the code are made explicit by step outcomes. -/

/-- Data fields of sbuffer_t (sbuffer.h): circular array, head (insert
index), tail (remove index), count, shutdown flag. -/
structure sbuffer_t where
  buffer : Nat → sensor_data_t
  head : Nat
  tail : Nat
  count : Nat
  shutdown_flag : Bool

/-- Outcome of one locked section of sbuffer_insert: either the call
returns an error code with the resulting state, or it blocks on the
not_full condition variable in the given state. -/
inductive insert_step where
  | ret (err : gateway_error_t) (s : sbuffer_t)
  | wait (s : sbuffer_t)

/-- Outcome of one locked section of sbuffer_remove. -/
inductive remove_step where
  | ret (err : gateway_error_t) (data : Option sensor_data_t) (s : sbuffer_t)
  | wait (s : sbuffer_t)

def insert_step.state : insert_step → sbuffer_t
  | .ret _ s => s
  | .wait s => s

def insert_step.err : insert_step → Option gateway_error_t
  | .ret e _ => some e
  | .wait _ => none

def remove_step.state : remove_step → sbuffer_t
  | .ret _ _ s => s
  | .wait s => s

def remove_step.err : remove_step → Option gateway_error_t
  | .ret e _ _ => some e
  | .wait _ => none

/-- Critical section of sbuffer_insert (sbuffer.c lines 146-148): write the
element at head, advance head modulo SBUFFER_SIZE, increment count. -/
def sbuffer_do_insert (s : sbuffer_t) (d : sensor_data_t) : sbuffer_t :=
  { s with
    buffer := fun j => if j = s.head then d else s.buffer j
    head := (s.head + 1) % SBUFFER_SIZE
    count := s.count + 1 }

/-- Body of sbuffer_insert once the mutex is held (sbuffer.c lines
130-149): shutdown is checked before waiting; then the wait loop runs
while count >= SBUFFER_SIZE; then the element is appended. -/
def sbuffer_insert_locked (s : sbuffer_t) (d : sensor_data_t) : insert_step :=
  if s.shutdown_flag then .ret .SBUFFER_SHUTDOWN s
  else if SBUFFER_SIZE ≤ s.count then .wait s
  else .ret .GATEWAY_SUCCESS (sbuffer_do_insert s d)

/-- Re-evaluation performed by sbuffer_insert when pthread_cond_wait
returns (sbuffer.c lines 137-149): the loop condition inspects only
count; the shutdown flag is not re-checked after waking. -/
def sbuffer_insert_resume (s : sbuffer_t) (d : sensor_data_t) : insert_step :=
  if SBUFFER_SIZE ≤ s.count then .wait s
  else .ret .GATEWAY_SUCCESS (sbuffer_do_insert s d)

/-- Critical section of sbuffer_remove (sbuffer.c lines 207-209): read the
element at tail, advance tail modulo SBUFFER_SIZE, decrement count. -/
def sbuffer_do_remove (s : sbuffer_t) : sensor_data_t × sbuffer_t :=
  (s.buffer s.tail,
   { s with
     tail := (s.tail + 1) % SBUFFER_SIZE
     count := s.count - 1 })

/-- Body of sbuffer_remove once the mutex is held (sbuffer.c lines
188-210).  The same predicate order is evaluated again on every wake-up
from pthread_cond_wait (lines 194-204), so the resume step coincides with
this function. -/
def sbuffer_remove_locked (s : sbuffer_t) : remove_step :=
  if s.shutdown_flag ∧ s.count = 0 then .ret .SBUFFER_SHUTDOWN none s
  else if s.count = 0 then .wait s
  else
    .ret .GATEWAY_SUCCESS (some (sbuffer_do_remove s).1) (sbuffer_do_remove s).2

/-- Body of sbuffer_signal_shutdown once the mutex is held (sbuffer.c
line 243): set the shutdown flag.  The broadcasts wake sleepers but do not
change the data fields. -/
def sbuffer_signal_shutdown_locked (s : sbuffer_t) : sbuffer_t :=
  { s with shutdown_flag := true }

/-- Combined outcome of a full call to sbuffer_insert or sbuffer_remove,
including the NULL-argument checks at the top of each function.  The
state component is the buffer as seen through the caller pointer. -/
inductive c_call_step where
  | ret (err : gateway_error_t) (out : Option sensor_data_t)
      (st : Option sbuffer_t)
  | blocked (st : Option sbuffer_t)

/-- Full call sbuffer_insert(buffer, data) (sbuffer.c lines 119-163): NULL
buffer or NULL data returns GATEWAY_ERROR_INVALID_ARG before anything else;
otherwise the locked body runs. -/
def sbuffer_insert_c (b : Option sbuffer_t) (d : Option sensor_data_t) :
    c_call_step :=
  match b, d with
  | some s, some dd =>
    match sbuffer_insert_locked s dd with
    | .ret e s2 => .ret e none (some s2)
    | .wait s2 => .blocked (some s2)
  | _, _ => .ret .GATEWAY_ERROR_INVALID_ARG none b

/-- Full call sbuffer_remove(buffer, data) (sbuffer.c lines 176-224).
The out-pointer data is modelled by the flag dst_valid (false models a
NULL destination pointer). -/
def sbuffer_remove_c (b : Option sbuffer_t) (dst_valid : Bool) :
    c_call_step :=
  match b, dst_valid with
  | some s, true =>
    match sbuffer_remove_locked s with
    | .ret e dd s2 => .ret e dd (some s2)
    | .wait s2 => .blocked (some s2)
  | _, _ => .ret .GATEWAY_ERROR_INVALID_ARG none b

/-- Full call sbuffer_signal_shutdown(buffer) (sbuffer.c lines 234-253):
a NULL buffer is left alone, otherwise the flag is set. -/
def sbuffer_signal_shutdown_c (b : Option sbuffer_t) : Option sbuffer_t :=
  match b with
  | none => none
  | some s => some (sbuffer_signal_shutdown_locked s)

/-- State produced by sbuffer_init (sbuffer.c lines 36-39): head, tail and
count zero, shutdown flag clear.  The array contents are left
uninitialized by the C code, hence the arbitrary f. -/
def sbuffer_init_state (f : Nat → sensor_data_t) : sbuffer_t :=
  { buffer := f, head := 0, tail := 0, count := 0, shutdown_flag := false }

/-- Abstraction of the buffer as the list of live readings, oldest
first. -/
def sbuffer_contents (s : sbuffer_t) : List sensor_data_t :=
  cq_contents s.buffer SBUFFER_SIZE s.tail s.count

/-- Structural well-formedness maintained by the sbuffer operations:
indices in range, count bounded, head positioned count slots past tail. -/
def sbuffer_wf (s : sbuffer_t) : Prop :=
  s.head < SBUFFER_SIZE ∧ s.tail < SBUFFER_SIZE ∧ s.count ≤ SBUFFER_SIZE ∧
    s.head = (s.tail + s.count) % SBUFFER_SIZE

theorem sbuffer_wf_init (f : Nat → sensor_data_t) :
    sbuffer_wf (sbuffer_init_state f) := by
  refine ⟨?_, ?_, ?_, ?_⟩ <;> simp [sbuffer_init_state, SBUFFER_SIZE]

theorem sbuffer_do_insert_wf {s : sbuffer_t} (hwf : sbuffer_wf s)
    (hcnt : s.count < SBUFFER_SIZE) (d : sensor_data_t) :
    sbuffer_wf (sbuffer_do_insert s d) := by
  obtain ⟨h1, h2, h3, h4⟩ := hwf
  refine ⟨?_, ?_, ?_, ?_⟩
  · exact Nat.mod_lt _ (by omega)
  · exact h2
  · simpa [sbuffer_do_insert] using hcnt
  · show (s.head + 1) % SBUFFER_SIZE = (s.tail + (s.count + 1)) % SBUFFER_SIZE
    rw [h4, Nat.mod_add_mod]
    have h5 : s.tail + s.count + 1 = s.tail + (s.count + 1) := by omega
    rw [h5]

theorem sbuffer_do_insert_contents {s : sbuffer_t} (hwf : sbuffer_wf s)
    (hcnt : s.count < SBUFFER_SIZE) (d : sensor_data_t) :
    sbuffer_contents (sbuffer_do_insert s d) = sbuffer_contents s ++ [d] := by
  obtain ⟨h1, h2, h3, h4⟩ := hwf
  show cq_contents (fun j => if j = s.head then d else s.buffer j)
      SBUFFER_SIZE s.tail (s.count + 1) = _
  rw [h4]
  exact cq_contents_push s.buffer SBUFFER_SIZE s.tail s.count d hcnt

theorem sbuffer_do_remove_wf {s : sbuffer_t} (hwf : sbuffer_wf s)
    (hcnt : 0 < s.count) :
    sbuffer_wf (sbuffer_do_remove s).2 := by
  obtain ⟨h1, h2, h3, h4⟩ := hwf
  refine ⟨h1, Nat.mod_lt _ (by omega), by simp only [sbuffer_do_remove]; omega, ?_⟩
  show s.head = ((s.tail + 1) % SBUFFER_SIZE + (s.count - 1)) % SBUFFER_SIZE
  rw [h4, Nat.mod_add_mod]
  congr 1
  omega

theorem sbuffer_do_remove_contents {s : sbuffer_t} (hwf : sbuffer_wf s)
    (hcnt : 0 < s.count) :
    sbuffer_contents s
      = (sbuffer_do_remove s).1 :: sbuffer_contents (sbuffer_do_remove s).2 := by
  obtain ⟨h1, h2, h3, h4⟩ := hwf
  obtain ⟨c, hc⟩ : ∃ c, s.count = c + 1 := ⟨s.count - 1, by omega⟩
  simp only [sbuffer_contents, sbuffer_do_remove, hc, Nat.add_sub_cancel]
  exact cq_contents_pop s.buffer SBUFFER_SIZE s.tail c h2

theorem sbuffer_insert_locked_success {s : sbuffer_t} (d : sensor_data_t)
    (h1 : s.shutdown_flag = false) (h2 : s.count < SBUFFER_SIZE) :
    sbuffer_insert_locked s d = .ret .GATEWAY_SUCCESS (sbuffer_do_insert s d) := by
  unfold sbuffer_insert_locked
  rw [h1]
  simp only [Bool.false_eq_true, if_false]
  rw [if_neg (by omega)]

theorem sbuffer_remove_locked_success {s : sbuffer_t} (h : 0 < s.count) :
    sbuffer_remove_locked s
      = .ret .GATEWAY_SUCCESS (some (sbuffer_do_remove s).1)
          (sbuffer_do_remove s).2 := by
  unfold sbuffer_remove_locked
  rw [if_neg (by rintro ⟨-, h0⟩; omega), if_neg (by omega)]

/-- Sequential execution of a producer that calls sbuffer_insert once per
element of the list, requiring every call to return GATEWAY_SUCCESS. -/
def run_inserts : List sensor_data_t → sbuffer_t → Option sbuffer_t
  | [], s => some s
  | d :: ds, s =>
    match sbuffer_insert_locked s d with
    | .ret e s2 => if e = .GATEWAY_SUCCESS then run_inserts ds s2 else none
    | .wait _ => none

/-- Sequential execution of a consumer that calls sbuffer_remove n times,
requiring every call to return GATEWAY_SUCCESS with a reading. -/
def run_removes : Nat → sbuffer_t → Option (List sensor_data_t × sbuffer_t)
  | 0, s => some ([], s)
  | n + 1, s =>
    match sbuffer_remove_locked s with
    | .ret e dd s2 =>
      if e = .GATEWAY_SUCCESS then
        match dd, run_removes n s2 with
        | some d, some (ds, s3) => some (d :: ds, s3)
        | _, _ => none
      else none
    | .wait _ => none

theorem run_inserts_spec :
    ∀ (ds : List sensor_data_t) (s : sbuffer_t), sbuffer_wf s →
      s.shutdown_flag = false → s.count + ds.length ≤ SBUFFER_SIZE →
      ∃ s2, run_inserts ds s = some s2 ∧ sbuffer_wf s2 ∧
        s2.shutdown_flag = false ∧
        sbuffer_contents s2 = sbuffer_contents s ++ ds ∧
        s2.count = s.count + ds.length := by
  intro ds
  induction ds with
  | nil =>
    intro s hwf hsd hle
    exact ⟨s, rfl, hwf, hsd, by simp, by simp⟩
  | cons d ds ih =>
    intro s hwf hsd hle
    have hcnt : s.count < SBUFFER_SIZE := by
      simp only [List.length_cons] at hle; omega
    have hstep := sbuffer_insert_locked_success d hsd hcnt
    have hsd2 : (sbuffer_do_insert s d).shutdown_flag = false := hsd
    have hle2 :
        (sbuffer_do_insert s d).count + ds.length ≤ SBUFFER_SIZE := by
      show s.count + 1 + ds.length ≤ SBUFFER_SIZE
      simp only [List.length_cons] at hle
      omega
    obtain ⟨s2, hrun, hwf3, hsd3, hcont, hcnt3⟩ :=
      ih (sbuffer_do_insert s d) (sbuffer_do_insert_wf hwf hcnt d) hsd2 hle2
    refine ⟨s2, ?_, hwf3, hsd3, ?_, ?_⟩
    · show (match sbuffer_insert_locked s d with
        | .ret e s2 => if e = .GATEWAY_SUCCESS then run_inserts ds s2 else none
        | .wait _ => none) = some s2
      rw [hstep]
      simpa using hrun
    · rw [hcont, sbuffer_do_insert_contents hwf hcnt d]
      simp
    · show s2.count = s.count + (ds.length + 1)
      rw [hcnt3]
      show s.count + 1 + ds.length = _
      omega

theorem run_removes_spec :
    ∀ (n : Nat) (s : sbuffer_t), sbuffer_wf s → n ≤ s.count →
      ∃ s2, run_removes n s = some ((sbuffer_contents s).take n, s2) ∧
        sbuffer_wf s2 ∧ sbuffer_contents s2 = (sbuffer_contents s).drop n ∧
        s2.count = s.count - n ∧ s2.shutdown_flag = s.shutdown_flag := by
  intro n
  induction n with
  | zero =>
    intro s hwf h
    exact ⟨s, by simp [run_removes], hwf, by simp, by simp, rfl⟩
  | succ n ih =>
    intro s hwf h
    have hpos : 0 < s.count := by omega
    have hstep := sbuffer_remove_locked_success hpos
    have hcnt2 : (sbuffer_do_remove s).2.count = s.count - 1 := rfl
    have hsd2 : (sbuffer_do_remove s).2.shutdown_flag = s.shutdown_flag := rfl
    obtain ⟨s2, hrun, hwf3, hcont3, hcnt3, hsd3⟩ :=
      ih (sbuffer_do_remove s).2 (sbuffer_do_remove_wf hwf hpos)
        (by rw [hcnt2]; omega)
    refine ⟨s2, ?_, hwf3, ?_, ?_, ?_⟩
    · simp only [run_removes, hstep, hrun]
      rw [sbuffer_do_remove_contents hwf hpos]
      simp [List.take_succ_cons]
    · rw [hcont3, sbuffer_do_remove_contents hwf hpos, List.drop_succ_cons]
    · rw [hcnt3, hcnt2]; omega
    · rw [hsd3, hsd2]

/-- Observable result of the single-producer-then-single-consumer
scenario: the readings that K successful removes return after K
successful inserts into a fresh buffer. -/
def insert_then_drain (f : Nat → sensor_data_t)
    (ds : List sensor_data_t) : Option (List sensor_data_t) :=
  match run_inserts ds (sbuffer_init_state f) with
  | some s1 => (run_removes ds.length s1).map Prod.fst
  | none => none

theorem sbuffer_contents_init (f : Nat → sensor_data_t) :
    sbuffer_contents (sbuffer_init_state f) = [] := by
  simp [sbuffer_contents, sbuffer_init_state, cq_contents]

/-- C5: for every sequence of K readings inserted into the shared buffer
by a single producer and then drained by a single consumer, the K
successful remove operations return exactly the same readings in the same
FIFO order as they were inserted.  Sequentially, the K inserts can all
complete exactly when K is at most the buffer capacity. -/
theorem c5_fifo_insert_then_drain (f : Nat → sensor_data_t)
    (ds : List sensor_data_t) (h : ds.length ≤ SBUFFER_SIZE) :
    insert_then_drain f ds = some ds := by
  obtain ⟨s1, hrun, hwf1, hsd1, hcont1, hcnt1⟩ :=
    run_inserts_spec ds (sbuffer_init_state f) (sbuffer_wf_init f) rfl
      (by simpa [sbuffer_init_state] using h)
  rw [sbuffer_contents_init] at hcont1
  simp only [List.nil_append] at hcont1
  obtain ⟨s2, hrem, hwf2, hcont2, hcnt2, hsd2⟩ :=
    run_removes_spec ds.length s1 hwf1
      (by rw [hcnt1]; simp [sbuffer_init_state])
  unfold insert_then_drain
  rw [hrun]
  show Option.map Prod.fst (run_removes ds.length s1) = some ds
  rw [hrem]
  simp only [Option.map_some']
  rw [hcont1, List.take_length]

/-- Witness for C5 at a concrete three-element sequence. -/
theorem c5_fifo_insert_then_drain_witness :
    insert_then_drain (fun _ => ⟨0, 0, 0⟩)
      [⟨1, 20, 5⟩, ⟨2, 21, 6⟩, ⟨3, 22, 7⟩]
      = some [⟨1, 20, 5⟩, ⟨2, 21, 6⟩, ⟨3, 22, 7⟩] :=
  c5_fifo_insert_then_drain (fun _ => ⟨0, 0, 0⟩)
    [⟨1, 20, 5⟩, ⟨2, 21, 6⟩, ⟨3, 22, 7⟩] (by simp [SBUFFER_SIZE])

/-! Section: C6: structural invariants of the buffer operations -/

/-- Invariant of C6: count bounded by the capacity and both indices inside
the array.  The lower bound 0 <= count is implicit in the Nat type. -/
def sbuffer_inv (s : sbuffer_t) : Prop :=
  s.count ≤ SBUFFER_SIZE ∧ s.head < SBUFFER_SIZE ∧ s.tail < SBUFFER_SIZE

theorem insert_locked_state_or (s : sbuffer_t) (d : sensor_data_t) :
    (sbuffer_insert_locked s d).state = s ∨
    (s.count < SBUFFER_SIZE ∧
      (sbuffer_insert_locked s d).state = sbuffer_do_insert s d) := by
  unfold sbuffer_insert_locked
  by_cases hsf : s.shutdown_flag
  · rw [if_pos hsf]; exact Or.inl rfl
  · rw [if_neg hsf]
    by_cases hfull : SBUFFER_SIZE ≤ s.count
    · rw [if_pos hfull]; exact Or.inl rfl
    · rw [if_neg hfull]; exact Or.inr ⟨by omega, rfl⟩

theorem insert_resume_state_or (s : sbuffer_t) (d : sensor_data_t) :
    (sbuffer_insert_resume s d).state = s ∨
    (s.count < SBUFFER_SIZE ∧
      (sbuffer_insert_resume s d).state = sbuffer_do_insert s d) := by
  unfold sbuffer_insert_resume
  by_cases hfull : SBUFFER_SIZE ≤ s.count
  · rw [if_pos hfull]; exact Or.inl rfl
  · rw [if_neg hfull]; exact Or.inr ⟨by omega, rfl⟩

theorem remove_locked_state_or (s : sbuffer_t) :
    (sbuffer_remove_locked s).state = s ∨
    (0 < s.count ∧
      (sbuffer_remove_locked s).state = (sbuffer_do_remove s).2) := by
  unfold sbuffer_remove_locked
  by_cases hz : s.count = 0
  · by_cases hsf : s.shutdown_flag
    · rw [if_pos ⟨hsf, hz⟩]; exact Or.inl rfl
    · rw [if_neg (by rintro ⟨h1, -⟩; exact hsf h1), if_pos hz]
      exact Or.inl rfl
  · rw [if_neg (by rintro ⟨-, h1⟩; exact hz h1), if_neg hz]
    exact Or.inr ⟨by omega, rfl⟩

/-- C6: every operation of the shared buffer (insert, both at entry and on
wake-up, remove, signal_shutdown) preserves 0 <= count <= N and keeps head
and tail inside the array, indices advance only by the modular increment,
and the shutdown flag is only ever raised, never cleared. -/
theorem c6_sbuffer_ops_invariants (s : sbuffer_t) (d : sensor_data_t)
    (h : sbuffer_inv s) :
    sbuffer_inv (sbuffer_insert_locked s d).state ∧
    sbuffer_inv (sbuffer_insert_resume s d).state ∧
    sbuffer_inv (sbuffer_remove_locked s).state ∧
    sbuffer_inv (sbuffer_signal_shutdown_locked s) ∧
    ((sbuffer_insert_locked s d).state.head = s.head ∨
      (sbuffer_insert_locked s d).state.head = (s.head + 1) % SBUFFER_SIZE) ∧
    (sbuffer_insert_locked s d).state.tail = s.tail ∧
    ((sbuffer_remove_locked s).state.tail = s.tail ∨
      (sbuffer_remove_locked s).state.tail = (s.tail + 1) % SBUFFER_SIZE) ∧
    (sbuffer_remove_locked s).state.head = s.head ∧
    (sbuffer_signal_shutdown_locked s).head = s.head ∧
    (sbuffer_signal_shutdown_locked s).tail = s.tail ∧
    (sbuffer_insert_locked s d).state.shutdown_flag = s.shutdown_flag ∧
    (sbuffer_insert_resume s d).state.shutdown_flag = s.shutdown_flag ∧
    (sbuffer_remove_locked s).state.shutdown_flag = s.shutdown_flag ∧
    (sbuffer_signal_shutdown_locked s).shutdown_flag = true := by
  obtain ⟨hc, hh, ht⟩ := h
  have hsz : 0 < SBUFFER_SIZE := by norm_num [SBUFFER_SIZE]
  rcases insert_locked_state_or s d with h1 | ⟨h1l, h1⟩ <;>
    rcases insert_resume_state_or s d with h2 | ⟨h2l, h2⟩ <;>
      rcases remove_locked_state_or s with h3 | ⟨h3l, h3⟩ <;>
        rw [h1, h2, h3] <;>
          and_intros <;>
            (try simp only [sbuffer_inv, sbuffer_do_insert, sbuffer_do_remove,
              sbuffer_signal_shutdown_locked]) <;>
                first
                  | trivial
                  | exact hc
                  | exact hh
                  | exact ht
                  | exact Nat.mod_lt _ hsz
                  | omega
                  | (left; trivial)
                  | (right; trivial)

/-- Witness for C6 at a concrete buffer state. -/
theorem c6_sbuffer_ops_invariants_witness :
    sbuffer_inv
      ((sbuffer_insert_locked
        (sbuffer_init_state (fun _ => ⟨0, 0, 0⟩)) ⟨4, 19, 2⟩).state) ∧
    (sbuffer_signal_shutdown_locked
      (sbuffer_init_state (fun _ => ⟨0, 0, 0⟩))).shutdown_flag = true :=
  ⟨(c6_sbuffer_ops_invariants (sbuffer_init_state (fun _ => ⟨0, 0, 0⟩))
      ⟨4, 19, 2⟩ ⟨by simp [sbuffer_init_state, SBUFFER_SIZE],
        by simp [sbuffer_init_state, SBUFFER_SIZE],
        by simp [sbuffer_init_state, SBUFFER_SIZE]⟩).1,
   (c6_sbuffer_ops_invariants (sbuffer_init_state (fun _ => ⟨0, 0, 0⟩))
      ⟨4, 19, 2⟩ ⟨by simp [sbuffer_init_state, SBUFFER_SIZE],
        by simp [sbuffer_init_state, SBUFFER_SIZE],
        by simp [sbuffer_init_state, SBUFFER_SIZE]⟩).2.2.2.2.2.2.2.2.2.2.2.2.2⟩

/-! Section: C1: shutdown versus a blocked insert -/

/-- Fully occupied buffer with the shutdown flag still clear; a producer
calling sbuffer_insert on it blocks in the not_full wait loop. -/
def c1_full_state : sbuffer_t :=
  { buffer := fun _ => ⟨7, 21, 100⟩, head := 0, tail := 0, count := 15,
    shutdown_flag := false }

/-- Reading that the blocked producer of the C1 scenario is inserting. -/
def c1_data : sensor_data_t := ⟨9, 25, 200⟩

/-- C1 counterexample: a producer blocks on a full buffer, shutdown is
signalled, a consumer then drains one element; when the producer wakes it
re-checks only the count, appends its reading and returns GATEWAY_SUCCESS
instead of the SBUFFER_SHUTDOWN sentinel. -/
theorem c1_insert_shutdown_while_blocked_cex :
    sbuffer_insert_locked c1_full_state c1_data = .wait c1_full_state ∧
    (sbuffer_remove_locked
      (sbuffer_signal_shutdown_locked c1_full_state)).err
        = some .GATEWAY_SUCCESS ∧
    (sbuffer_remove_locked
      (sbuffer_signal_shutdown_locked c1_full_state)).state.shutdown_flag
        = true ∧
    (sbuffer_insert_resume
      ((sbuffer_remove_locked
        (sbuffer_signal_shutdown_locked c1_full_state)).state) c1_data).err
        = some .GATEWAY_SUCCESS ∧
    (sbuffer_insert_resume
      ((sbuffer_remove_locked
        (sbuffer_signal_shutdown_locked c1_full_state)).state) c1_data).err
        ≠ some .SBUFFER_SHUTDOWN ∧
    (sbuffer_insert_resume
      ((sbuffer_remove_locked
        (sbuffer_signal_shutdown_locked c1_full_state)).state) c1_data).state.count
        = (sbuffer_remove_locked
            (sbuffer_signal_shutdown_locked c1_full_state)).state.count + 1 := by
  refine ⟨rfl, rfl, rfl, rfl, ?_, rfl⟩
  intro h
  exact absurd (Option.some.inj h) (by decide)

/-- C1 amended: if the shutdown flag is already set when sbuffer_insert
acquires the mutex, the call returns SBUFFER_SHUTDOWN and leaves the
buffer unchanged.  A shutdown signalled while the call is blocked waiting
for capacity is not detected by the wait loop. -/
theorem c1_insert_shutdown_at_entry (s : sbuffer_t) (d : sensor_data_t)
    (h : s.shutdown_flag = true) :
    sbuffer_insert_locked s d = .ret .SBUFFER_SHUTDOWN s ∧
    sbuffer_insert_c (some s) (some d)
      = .ret .SBUFFER_SHUTDOWN none (some s) := by
  have h1 : sbuffer_insert_locked s d = .ret .SBUFFER_SHUTDOWN s := by
    unfold sbuffer_insert_locked
    rw [h]
    simp
  refine ⟨h1, ?_⟩
  show (match sbuffer_insert_locked s d with
    | insert_step.ret e s2 => c_call_step.ret e none (some s2)
    | insert_step.wait s2 => c_call_step.blocked (some s2))
      = c_call_step.ret .SBUFFER_SHUTDOWN none (some s)
  rw [h1]

/-- Empty buffer whose shutdown flag is set, for the C1 witness. -/
def c1_sd_state : sbuffer_t :=
  { buffer := fun _ => ⟨0, 0, 0⟩, head := 0, tail := 0, count := 0,
    shutdown_flag := true }

/-- Witness for the amended C1 at a concrete shut-down buffer. -/
theorem c1_insert_shutdown_at_entry_witness :
    sbuffer_insert_locked c1_sd_state ⟨7, 21, 100⟩
      = .ret .SBUFFER_SHUTDOWN c1_sd_state ∧
    sbuffer_insert_c (some c1_sd_state) (some ⟨7, 21, 100⟩)
      = .ret .SBUFFER_SHUTDOWN none (some c1_sd_state) :=
  c1_insert_shutdown_at_entry c1_sd_state ⟨7, 21, 100⟩ rfl

/-! Section: C9: NULL arguments to insert and remove -/

/-- C9: a NULL buffer pointer or NULL data pointer makes sbuffer_insert
and sbuffer_remove return GATEWAY_ERROR_INVALID_ARG before touching any
state, so the buffer seen through the pointer is unchanged. -/
theorem c9_null_args_invalid (b : Option sbuffer_t)
    (d : Option sensor_data_t) (dv : Bool) :
    ((b = none ∨ d = none) →
      sbuffer_insert_c b d = .ret .GATEWAY_ERROR_INVALID_ARG none b) ∧
    ((b = none ∨ dv = false) →
      sbuffer_remove_c b dv = .ret .GATEWAY_ERROR_INVALID_ARG none b) := by
  constructor
  · rintro (rfl | rfl)
    · cases d <;> rfl
    · cases b <;> rfl
  · rintro (rfl | rfl)
    · cases dv <;> rfl
    · cases b <;> rfl

/-- Concrete live buffer used by the C9 witness. -/
def c9_buf : sbuffer_t := sbuffer_init_state (fun _ => ⟨1, 20, 0⟩)

/-- Witness for C9: NULL buffer on insert, NULL destination on remove. -/
theorem c9_null_args_invalid_witness :
    sbuffer_insert_c none (some ⟨1, 20, 0⟩)
      = .ret .GATEWAY_ERROR_INVALID_ARG none none ∧
    sbuffer_remove_c (some c9_buf) false
      = .ret .GATEWAY_ERROR_INVALID_ARG none (some c9_buf) :=
  ⟨(c9_null_args_invalid none (some ⟨1, 20, 0⟩) false).1 (Or.inl rfl),
   (c9_null_args_invalid (some c9_buf) (some ⟨1, 20, 0⟩) false).2
     (Or.inr rfl)⟩

/-! Section: Analytics consumer (datamgt.c)

Per-sensor running statistics, the threshold classification and the alert
state machine of check_temperature_alerts, and the dynamic statistics
table of find_or_create_sensor.  C doubles are modelled as rationals; the
room-id lookup only changes the wording of the alert message, not which
alerts are emitted, so alerts are modelled as (level, state) pairs. -/

/-- Thermal states of datamgt.c (temp_state_t). -/
inductive temp_state_t where
  | NORMAL
  | TOO_COLD
  | TOO_HOT
deriving DecidableEq

/-- TEMP_TOO_HOT_THRESHOLD from config.h (30.0). -/
def TEMP_TOO_HOT_THRESHOLD : ℚ := 30

/-- TEMP_TOO_COLD_THRESHOLD from config.h (15.0). -/
def TEMP_TOO_COLD_THRESHOLD : ℚ := 15

/-- INVALID_SENSOR_ID from datamgt.c. -/
def INVALID_SENSOR_ID : Nat := 0

/-- INITIAL_SENSOR_LIST_CAPACITY from datamgt.c. -/
def INITIAL_SENSOR_LIST_CAPACITY : Nat := 10

/-- Embedding of sensor_stats_t from datamgt.c. -/
structure sensor_stats_t where
  id : Nat
  total_value_sum : ℚ
  reading_count : Nat
  last_logged_state : temp_state_t
deriving DecidableEq

/-- Embedding of sensor_stats_list_t: the dynamic array is a list plus its
allocated capacity. -/
structure sensor_stats_list_t where
  data : List sensor_stats_t
  capacity : Nat
deriving DecidableEq

/-- Fresh entry created by find_or_create_sensor (datamgt.c lines
220-224): sum 0, count 0, state NORMAL. -/
def fresh_sensor_stats (id : Nat) : sensor_stats_t :=
  { id := id, total_value_sum := 0, reading_count := 0,
    last_logged_state := .NORMAL }

/-- Linear search of find_or_create_sensor (datamgt.c lines 199-203),
returning the index of the first entry with the given id. -/
def find_sensor_idx : List sensor_stats_t → Nat → Option Nat
  | [], _ => none
  | st :: rest, id =>
    if st.id = id then some 0
    else (find_sensor_idx rest id).map (· + 1)

/-- Embedding of find_or_create_sensor (datamgt.c lines 197-228): search;
if absent, double the capacity when full (realloc may fail, modelled by
alloc_ok), then append one fresh entry.  The result index is the entry the
returned C pointer designates; none models the NULL return on realloc
failure, which leaves the list unchanged. -/
def find_or_create_sensor (lst : sensor_stats_list_t) (id : Nat)
    (alloc_ok : Bool) : sensor_stats_list_t × Option Nat :=
  match find_sensor_idx lst.data id with
  | some i => (lst, some i)
  | none =>
    if lst.capacity ≤ lst.data.length then
      if alloc_ok then
        ({ data := lst.data ++ [fresh_sensor_stats id],
           capacity := if lst.capacity = 0 then INITIAL_SENSOR_LIST_CAPACITY
             else lst.capacity * 2 },
         some lst.data.length)
      else (lst, none)
    else
      ({ lst with data := lst.data ++ [fresh_sensor_stats id] },
       some lst.data.length)

/-- Embedding of update_sensor_stats (datamgt.c lines 233-237). -/
def update_sensor_stats (st : sensor_stats_t) (value : ℚ) : sensor_stats_t :=
  { st with
    total_value_sum := st.total_value_sum + value
    reading_count := st.reading_count + 1 }

/-- Threshold classification of check_temperature_alerts (datamgt.c lines
249-262): TOO_COLD when avg < cold threshold, else TOO_HOT when avg > hot
threshold, else NORMAL. -/
def classify_avg (avg : ℚ) : temp_state_t :=
  if avg < TEMP_TOO_COLD_THRESHOLD then .TOO_COLD
  else if TEMP_TOO_HOT_THRESHOLD < avg then .TOO_HOT
  else .NORMAL

/-- Level of the alert line emitted for a state entered (datamgt.c lines
269-286): WARNING for the two extreme states, INFO for the return to
normal. -/
def alert_level : temp_state_t → log_level
  | .TOO_COLD => .WARNING
  | .TOO_HOT => .WARNING
  | .NORMAL => .INFO

/-- Embedding of check_temperature_alerts (datamgt.c lines 242-289):
returns the updated statistics entry and the alert lines emitted, as
(level, state) pairs. -/
def check_temperature_alerts (st : sensor_stats_t) :
    sensor_stats_t × List (log_level × temp_state_t) :=
  if st.reading_count = 0 then (st, [])
  else
    let current_state :=
      classify_avg (st.total_value_sum / (st.reading_count : ℚ))
    if current_state ≠ st.last_logged_state then
      ({ st with last_logged_state := current_state },
       [(alert_level current_state, current_state)])
    else (st, [])

/-- Per-sensor processing of a sequence of readings: each reading is added
to the running statistics and then the alert check runs, exactly as steps
3 and 4 of the datamgt_run loop do for one sensor. -/
def run_sensor_readings (st : sensor_stats_t) :
    List ℚ → sensor_stats_t × List (log_level × temp_state_t)
  | [] => (st, [])
  | v :: vs =>
    ((run_sensor_readings
        (check_temperature_alerts (update_sensor_stats st v)).1 vs).1,
     (check_temperature_alerts (update_sensor_stats st v)).2 ++
       (run_sensor_readings
         (check_temperature_alerts (update_sensor_stats st v)).1 vs).2)

theorem check_alerts_cases (st : sensor_stats_t) (v : ℚ) :
    ((check_temperature_alerts (update_sensor_stats st v)).2 = [] ∧
      (check_temperature_alerts (update_sensor_stats st v)).1.last_logged_state
        = st.last_logged_state) ∨
    (∃ c, c ≠ st.last_logged_state ∧
      (check_temperature_alerts (update_sensor_stats st v)).2
        = [(alert_level c, c)] ∧
      (check_temperature_alerts (update_sensor_stats st v)).1.last_logged_state
        = c) := by
  unfold check_temperature_alerts
  rw [if_neg (by simp [update_sensor_stats])]
  by_cases hc :
      classify_avg ((update_sensor_stats st v).total_value_sum /
          ((update_sensor_stats st v).reading_count : ℚ))
        = (update_sensor_stats st v).last_logged_state
  · rw [if_neg (by simpa using hc)]
    exact Or.inl ⟨rfl, rfl⟩
  · rw [if_pos (by simpa using hc)]
    exact Or.inr ⟨_, hc, rfl, rfl⟩

theorem run_sensor_readings_chain (vs : List ℚ) :
    ∀ st : sensor_stats_t,
      List.Chain' (fun x y => x ≠ y)
        (st.last_logged_state ::
          (run_sensor_readings st vs).2.map Prod.snd) := by
  induction vs with
  | nil => intro st; simp [run_sensor_readings]
  | cons v vs ih =>
    intro st
    show List.Chain' _ (st.last_logged_state ::
      ((check_temperature_alerts (update_sensor_stats st v)).2 ++
        (run_sensor_readings
          (check_temperature_alerts (update_sensor_stats st v)).1 vs).2).map
            Prod.snd)
    rcases check_alerts_cases st v with ⟨h1, h2⟩ | ⟨c, hc, h1, h2⟩
    · rw [h1]
      have := ih (check_temperature_alerts (update_sensor_stats st v)).1
      rw [h2] at this
      simpa using this
    · rw [h1]
      have := ih (check_temperature_alerts (update_sensor_stats st v)).1
      rw [h2] at this
      simp only [List.map_append, List.map_cons, List.map_nil,
        List.nil_append, List.singleton_append, List.cons_append]
      exact List.Chain'.cons (by simpa using hc.symm) (by simpa using this)

/-- C4: readings update the per-sensor running average sum/count, which is
classified TOO_COLD below the cold threshold, TOO_HOT above the hot
threshold and NORMAL otherwise; an alert is emitted exactly when the
classification differs from the last logged state (WARNING entering
TOO_COLD or TOO_HOT, INFO returning to NORMAL), the last logged state then
tracks the classification, the initial state is NORMAL, and consequently
the logged alert state sequence of any run never repeats a state in two
consecutive alerts. -/
theorem c4_alert_state_machine (st : sensor_stats_t) (v a : ℚ)
    (id0 : Nat) (vs : List ℚ) :
    (a < TEMP_TOO_COLD_THRESHOLD → classify_avg a = .TOO_COLD) ∧
    (TEMP_TOO_HOT_THRESHOLD < a → classify_avg a = .TOO_HOT) ∧
    (TEMP_TOO_COLD_THRESHOLD ≤ a → a ≤ TEMP_TOO_HOT_THRESHOLD →
      classify_avg a = .NORMAL) ∧
    alert_level .TOO_COLD = .WARNING ∧
    alert_level .TOO_HOT = .WARNING ∧
    alert_level .NORMAL = .INFO ∧
    (update_sensor_stats st v).total_value_sum = st.total_value_sum + v ∧
    (update_sensor_stats st v).reading_count = st.reading_count + 1 ∧
    ((check_temperature_alerts (update_sensor_stats st v)).2
      = if classify_avg ((update_sensor_stats st v).total_value_sum /
            ((update_sensor_stats st v).reading_count : ℚ))
          = st.last_logged_state
        then []
        else [(alert_level (classify_avg
                ((update_sensor_stats st v).total_value_sum /
                  ((update_sensor_stats st v).reading_count : ℚ))),
               classify_avg ((update_sensor_stats st v).total_value_sum /
                 ((update_sensor_stats st v).reading_count : ℚ)))]) ∧
    ((check_temperature_alerts (update_sensor_stats st v)).1.last_logged_state
      = classify_avg ((update_sensor_stats st v).total_value_sum /
          ((update_sensor_stats st v).reading_count : ℚ))) ∧
    (fresh_sensor_stats id0).last_logged_state = .NORMAL ∧
    List.Chain' (fun x y => x ≠ y)
      (temp_state_t.NORMAL ::
        (run_sensor_readings (fresh_sensor_stats id0) vs).2.map Prod.snd) := by
  refine ⟨?_, ?_, ?_, rfl, rfl, rfl, rfl, rfl, ?_, ?_, rfl, ?_⟩
  · intro h
    unfold classify_avg
    rw [if_pos h]
  · intro h
    unfold classify_avg
    have hn : ¬ a < TEMP_TOO_COLD_THRESHOLD := by
      unfold TEMP_TOO_COLD_THRESHOLD
      unfold TEMP_TOO_HOT_THRESHOLD at h
      linarith
    rw [if_neg hn, if_pos h]
  · intro h1 h2
    unfold classify_avg
    have hn1 : ¬ a < TEMP_TOO_COLD_THRESHOLD := by linarith
    have hn2 : ¬ TEMP_TOO_HOT_THRESHOLD < a := by linarith
    rw [if_neg hn1, if_neg hn2]
  · unfold check_temperature_alerts
    rw [if_neg (by simp [update_sensor_stats])]
    have hll : (update_sensor_stats st v).last_logged_state
        = st.last_logged_state := rfl
    by_cases hc :
        classify_avg ((update_sensor_stats st v).total_value_sum /
            ((update_sensor_stats st v).reading_count : ℚ))
          = st.last_logged_state
    · rw [if_neg (by simp [hll, hc]), if_pos hc]
    · rw [if_pos (by simp [hll, hc]), if_neg hc]
  · unfold check_temperature_alerts
    rw [if_neg (by simp [update_sensor_stats])]
    have hll : (update_sensor_stats st v).last_logged_state
        = st.last_logged_state := rfl
    by_cases hc :
        classify_avg ((update_sensor_stats st v).total_value_sum /
            ((update_sensor_stats st v).reading_count : ℚ))
          = st.last_logged_state
    · rw [if_neg (by simp [hll, hc])]
      exact hc.symm ▸ hll
    · rw [if_pos (by simp [hll, hc])]
  · have := run_sensor_readings_chain vs (fresh_sensor_stats id0)
    simpa [fresh_sensor_stats] using this

/-- Witness for C4: the hot-alert scenario of the specification, readings
35, 36, 10 for one sensor, plus each classification fact at a concrete
average. -/
theorem c4_alert_state_machine_witness :
    classify_avg 10 = .TOO_COLD ∧
    classify_avg 35 = .TOO_HOT ∧
    classify_avg 20 = .NORMAL ∧
    List.Chain' (fun x y => x ≠ y)
      (temp_state_t.NORMAL ::
        (run_sensor_readings (fresh_sensor_stats 9)
          [35, 36, 10]).2.map Prod.snd) :=
  ⟨(c4_alert_state_machine (fresh_sensor_stats 9) 0 10 9 []).1
      (by norm_num [TEMP_TOO_COLD_THRESHOLD]),
   (c4_alert_state_machine (fresh_sensor_stats 9) 0 35 9 []).2.1
      (by norm_num [TEMP_TOO_HOT_THRESHOLD]),
   (c4_alert_state_machine (fresh_sensor_stats 9) 0 20 9 []).2.2.1
      (by norm_num [TEMP_TOO_COLD_THRESHOLD])
      (by norm_num [TEMP_TOO_HOT_THRESHOLD]),
   (c4_alert_state_machine (fresh_sensor_stats 9) 0 20 9
      [35, 36, 10]).2.2.2.2.2.2.2.2.2.2.2⟩

/-! Section: C10: uniqueness of the statistics table entries -/

theorem find_sensor_idx_none_iff (id : Nat) :
    ∀ l : List sensor_stats_t,
      find_sensor_idx l id = none ↔ ∀ st ∈ l, st.id ≠ id := by
  intro l
  induction l with
  | nil => simp [find_sensor_idx]
  | cons st rest ih =>
    by_cases h : st.id = id
    · simp [find_sensor_idx, h]
    · rw [find_sensor_idx, if_neg h, Option.map_eq_none', ih]
      simp only [List.mem_cons]
      constructor
      · rintro hall st2 hst2
        rcases hst2 with rfl | hmem
        · exact h
        · exact hall st2 hmem
      · intro hall st2 hmem
        exact hall st2 (Or.inr hmem)

theorem find_sensor_idx_some (id : Nat) :
    ∀ (l : List sensor_stats_t) (i : Nat),
      find_sensor_idx l id = some i →
        i < l.length ∧ (l.getD i (fresh_sensor_stats id)).id = id := by
  intro l
  induction l with
  | nil => intro i h; simp [find_sensor_idx] at h
  | cons st rest ih =>
    intro i h
    by_cases hid : st.id = id
    · rw [find_sensor_idx, if_pos hid] at h
      obtain rfl : i = 0 := by simpa using h.symm
      exact ⟨by simp, hid⟩
    · rw [find_sensor_idx, if_neg hid] at h
      obtain ⟨j, hj, rfl⟩ := Option.map_eq_some'.mp h
      obtain ⟨hlt, hget⟩ := ih j hj
      refine ⟨by simpa using hlt, ?_⟩
      simpa [List.getD] using hget

theorem nodup_ids_filter_le_one (id : Nat) :
    ∀ l : List sensor_stats_t, (l.map sensor_stats_t.id).Nodup →
      (l.filter (fun st => st.id == id)).length ≤ 1 := by
  intro l
  induction l with
  | nil => intro _; simp
  | cons st rest ih =>
    intro h
    rw [List.map_cons, List.nodup_cons] at h
    by_cases hid : st.id = id
    · have hrest : rest.filter (fun st => st.id == id) = [] := by
        rw [List.filter_eq_nil_iff]
        intro st2 hmem
        simp only [beq_iff_eq]
        intro heq
        exact h.1 (by
          rw [List.mem_map]
          exact ⟨st2, hmem, by rw [heq, hid]⟩)
      simp [List.filter_cons, hid, hrest]
    · simp only [List.filter_cons, beq_iff_eq, if_neg hid]
      exact ih h.2

theorem find_or_create_eq_of_none (lst : sensor_stats_list_t) (id : Nat)
    (ok : Bool) (hfind : find_sensor_idx lst.data id = none) :
    find_or_create_sensor lst id ok
      = if lst.capacity ≤ lst.data.length then
          (if ok then
            ({ data := lst.data ++ [fresh_sensor_stats id],
               capacity := if lst.capacity = 0 then
                 INITIAL_SENSOR_LIST_CAPACITY else lst.capacity * 2 },
             some lst.data.length)
          else (lst, none))
        else
          ({ lst with data := lst.data ++ [fresh_sensor_stats id] },
           some lst.data.length) := by
  unfold find_or_create_sensor
  rw [hfind]

theorem find_or_create_eq_of_some (lst : sensor_stats_list_t) (id : Nat)
    (ok : Bool) (i : Nat) (hfind : find_sensor_idx lst.data id = some i) :
    find_or_create_sensor lst id ok = (lst, some i) := by
  unfold find_or_create_sensor
  rw [hfind]

/-- C10: the Analytics statistics table never holds two entries with the
same sensor id: find_or_create_sensor returns the existing entry when the
id is present, otherwise it appends exactly one fresh entry with sum 0,
count 0 and state NORMAL (or leaves the table unchanged when the realloc
that doubles a full table fails), so distinctness of the stored ids is
preserved and at most one entry matches any id. -/
theorem c10_find_or_create_no_duplicates (lst : sensor_stats_list_t)
    (id : Nat) (ok : Bool)
    (h : (lst.data.map sensor_stats_t.id).Nodup) :
    ((find_or_create_sensor lst id ok).1.data.map sensor_stats_t.id).Nodup ∧
    (∀ i, find_sensor_idx lst.data id = some i →
      find_or_create_sensor lst id ok = (lst, some i) ∧
      (lst.data.getD i (fresh_sensor_stats id)).id = id) ∧
    (find_sensor_idx lst.data id = none →
      ((find_or_create_sensor lst id ok).2 = none →
        (find_or_create_sensor lst id ok).1 = lst) ∧
      (∀ i, (find_or_create_sensor lst id ok).2 = some i →
        (find_or_create_sensor lst id ok).1.data
          = lst.data ++ [fresh_sensor_stats id] ∧ i = lst.data.length)) ∧
    (((find_or_create_sensor lst id ok).1.data.filter
        (fun st => st.id == id)).length ≤ 1) := by
  rcases hfind : find_sensor_idx lst.data id with _ | i
  · have hallne : ∀ st ∈ lst.data, st.id ≠ id :=
      (find_sensor_idx_none_iff id lst.data).mp hfind
    have hnotin : id ∉ lst.data.map sensor_stats_t.id := by
      rw [List.mem_map]
      rintro ⟨st2, hmem, heq⟩
      exact hallne st2 hmem heq
    have hfilter_nil : lst.data.filter (fun st => st.id == id) = [] := by
      rw [List.filter_eq_nil_iff]
      intro st2 hmem
      simp only [beq_iff_eq]
      exact hallne st2 hmem
    have hnodup2 :
        ((lst.data ++ [fresh_sensor_stats id]).map
          sensor_stats_t.id).Nodup := by
      rw [List.map_append]
      apply List.Nodup.append h (by simp)
      intro x hx1 hx2
      simp only [List.map_cons, List.map_nil, List.mem_singleton,
        fresh_sensor_stats] at hx2
      subst hx2
      exact hnotin hx1
    have hfilter_app :
        ((lst.data ++ [fresh_sensor_stats id]).filter
          (fun st => st.id == id)).length ≤ 1 := by
      rw [List.filter_append, hfilter_nil]
      simp [fresh_sensor_stats]
    have hF := find_or_create_eq_of_none lst id ok hfind
    by_cases hcap : lst.capacity ≤ lst.data.length
    · rw [if_pos hcap] at hF
      cases ok with
      | false =>
        simp only [Bool.false_eq_true, if_false] at hF
        rw [hF]
        refine ⟨h, ?_, ?_, ?_⟩
        · intro i hi
          simp at hi
        · intro _
          exact ⟨fun _ => rfl, fun i hi => by simp at hi⟩
        · rw [hfilter_nil]
          simp
      | true =>
        simp only [if_true] at hF
        rw [hF]
        refine ⟨hnodup2, ?_, ?_, ?_⟩
        · intro i hi
          simp at hi
        · intro _
          refine ⟨by simp, fun i hi => ⟨rfl, ?_⟩⟩
          simpa using hi.symm
        · exact hfilter_app
    · rw [if_neg hcap] at hF
      rw [hF]
      refine ⟨hnodup2, ?_, ?_, ?_⟩
      · intro i hi
        simp at hi
      · intro _
        refine ⟨by simp, fun i hi => ⟨rfl, ?_⟩⟩
        simpa using hi.symm
      · exact hfilter_app
  · have hF := find_or_create_eq_of_some lst id ok i hfind
    rw [hF]
    refine ⟨h, ?_, ?_, ?_⟩
    · intro j hj
      obtain rfl : i = j := by simpa using hj
      exact ⟨rfl, (find_sensor_idx_some id lst.data i hfind).2⟩
    · intro hnone
      simp at hnone
    · exact nodup_ids_filter_le_one id lst.data h

/-- Concrete table for the C10 witness: two distinct sensors present. -/
def c10_table : sensor_stats_list_t :=
  { data := [⟨5, 40, 2, .NORMAL⟩, ⟨7, 10, 1, .TOO_COLD⟩], capacity := 10 }

/-- Witness for C10 at a concrete table and a fresh id. -/
theorem c10_find_or_create_no_duplicates_witness :
    ((find_or_create_sensor c10_table 9 true).1.data.map
      sensor_stats_t.id).Nodup ∧
    (((find_or_create_sensor c10_table 9 true).1.data.filter
        (fun st => st.id == 9)).length ≤ 1) :=
  ⟨(c10_find_or_create_no_duplicates c10_table 9 true (by decide)).1,
   (c10_find_or_create_no_duplicates c10_table 9 true (by decide)).2.2.2⟩

/-! Section: C8: invalid sensor id handling in the datamgt_run loop -/

/-- Log lines the datamgt_run loop body can emit for one reading
(datamgt.c lines 117-139): the WARNING for a zero sensor id, the ERROR
when find_or_create_sensor fails, the temperature alert lines, and the
final DEBUG trace line.  Level-DEBUG lines inside find_or_create_sensor
carry no state and are not modelled. -/
inductive datamgt_event where
  | invalid_id_warning (id : Nat)
  | stats_error (id : Nat)
  | alert (lvl : log_level) (state : temp_state_t)
  | debug_processed (id : Nat)
deriving DecidableEq

def datamgt_event.level : datamgt_event → log_level
  | .invalid_id_warning _ => .WARNING
  | .stats_error _ => .ERROR
  | .alert lvl _ => lvl
  | .debug_processed _ => .DEBUG

/-- In-place update of one list entry, the effect of writing through the
sensor_stats_t pointer returned by find_or_create_sensor. -/
def list_update_at {α : Type} : List α → Nat → (α → α) → List α
  | [], _, _ => []
  | a :: rest, 0, f => f a :: rest
  | a :: rest, n + 1, f => a :: list_update_at rest n f

/-- Body of the datamgt_run loop for one reading already taken from the
buffer (datamgt.c lines 117-139): a zero id is logged at WARNING level and
skipped; otherwise the statistics entry is found or created, updated, and
the alert check runs. -/
def datamgt_handle_reading (lst : sensor_stats_list_t) (d : sensor_data_t)
    (alloc_ok : Bool) : sensor_stats_list_t × List datamgt_event :=
  if d.id = INVALID_SENSOR_ID then (lst, [.invalid_id_warning d.id])
  else
    match find_or_create_sensor lst d.id alloc_ok with
    | (lst2, none) => (lst2, [.stats_error d.id])
    | (lst2, some i) =>
      ({ lst2 with
         data := list_update_at lst2.data i (fun _ =>
           (check_temperature_alerts (update_sensor_stats
             (lst2.data.getD i (fresh_sensor_stats d.id)) d.value)).1) },
       (check_temperature_alerts (update_sensor_stats
         (lst2.data.getD i (fresh_sensor_stats d.id)) d.value)).2.map
           (fun p => datamgt_event.alert p.1 p.2) ++ [.debug_processed d.id])

/-- Iteration of the datamgt_run loop over a sequence of readings removed
from the buffer (allocation assumed to succeed). -/
def datamgt_process_all (lst : sensor_stats_list_t) :
    List sensor_data_t → sensor_stats_list_t × List datamgt_event
  | [] => (lst, [])
  | d :: ds =>
    ((datamgt_process_all (datamgt_handle_reading lst d true).1 ds).1,
     (datamgt_handle_reading lst d true).2 ++
       (datamgt_process_all (datamgt_handle_reading lst d true).1 ds).2)

/-- Concrete table for the C8 counterexample. -/
def c8_table : sensor_stats_list_t :=
  { data := [⟨3, 20, 1, .NORMAL⟩], capacity := 10 }

/-- Reading with the reserved invalid sensor id 0. -/
def c8_reading : sensor_data_t := ⟨0, 22, 50⟩

/-- C8 counterexample: the drop of a zero-id reading is not silent: the
loop logs one WARNING line ("Received sensor data with invalid sensor node
ID 0") for it, so the log output of that iteration is nonempty. -/
theorem c8_invalid_id_not_silent_cex :
    (datamgt_handle_reading c8_table c8_reading true).2
      = [.invalid_id_warning 0] ∧
    (datamgt_handle_reading c8_table c8_reading true).2 ≠ [] ∧
    ((datamgt_handle_reading c8_table c8_reading true).2.map
      datamgt_event.level) = [.WARNING] := by
  refine ⟨rfl, ?_, rfl⟩
  intro hne
  exact absurd (congrArg List.length hne) (by decide)

/-- C8 amended: a reading with sensor id 0 is dropped with exactly one
WARNING log line (not silently): no statistics entry is created or
updated, the emitted line is not a temperature alert, and processing
continues with the next reading. -/
theorem c8_invalid_id_dropped (lst : sensor_stats_list_t)
    (d : sensor_data_t) (ok : Bool) (rest : List sensor_data_t)
    (h : d.id = INVALID_SENSOR_ID) :
    datamgt_handle_reading lst d ok
      = (lst, [.invalid_id_warning d.id]) ∧
    (datamgt_event.invalid_id_warning d.id).level = .WARNING ∧
    (∀ lvl stt, datamgt_event.invalid_id_warning d.id
        ≠ datamgt_event.alert lvl stt) ∧
    datamgt_process_all lst (d :: rest)
      = ((datamgt_process_all lst rest).1,
         datamgt_event.invalid_id_warning d.id ::
           (datamgt_process_all lst rest).2) := by
  have h1 : ∀ ok2 : Bool, datamgt_handle_reading lst d ok2
      = (lst, [.invalid_id_warning d.id]) := by
    intro ok2
    unfold datamgt_handle_reading
    rw [if_pos h]
  refine ⟨h1 ok, rfl, ?_, ?_⟩
  · intro lvl stt
    simp
  · show ((datamgt_process_all (datamgt_handle_reading lst d true).1 rest).1,
      (datamgt_handle_reading lst d true).2 ++
        (datamgt_process_all (datamgt_handle_reading lst d true).1 rest).2) = _
    rw [h1 true]
    simp

/-- Witness for the amended C8 at a concrete table and readings. -/
theorem c8_invalid_id_dropped_witness :
    datamgt_handle_reading ⟨[], 10⟩ ⟨0, 21, 9⟩ true
      = (⟨[], 10⟩, [.invalid_id_warning 0]) ∧
    datamgt_process_all ⟨[], 10⟩ [⟨0, 21, 9⟩]
      = ((datamgt_process_all ⟨[], 10⟩ []).1,
         datamgt_event.invalid_id_warning 0 ::
           (datamgt_process_all ⟨[], 10⟩ []).2) :=
  ⟨(c8_invalid_id_dropped ⟨[], 10⟩ ⟨0, 21, 9⟩ true [] rfl).1,
   (c8_invalid_id_dropped ⟨[], 10⟩ ⟨0, 21, 9⟩ true [] rfl).2.2.2⟩

/-! Section: C7: idle timeout strictness (conmgt.c) -/

/-- Embedding of client_info_t from conmgt.h (the peer address fields do
not influence the timeout decision and are omitted).  An inactive slot has
socket_fd = -1. -/
structure client_info_t where
  socket_fd : Int
  sensor_id : Nat
  last_active_ts : Int
  id_received : Bool
deriving DecidableEq

/-- Timeout test of check_sensor_timeouts (conmgt.c line 470):
(now - last_active_ts) > SENSOR_TIMEOUT_SEC, strictly. -/
def client_timed_out (now : Int) (c : client_info_t) : Bool :=
  decide (SENSOR_TIMEOUT_SEC < now - c.last_active_ts)

/-- One pass of check_sensor_timeouts (conmgt.c lines 463-483) over the
client table: active records whose idle time is strictly above the limit
are removed (closed and logged), every other record is kept.  Result:
(kept records, closed records). -/
def check_sensor_timeouts_pass (now : Int) :
    List client_info_t → List client_info_t × List client_info_t
  | [] => ([], [])
  | c :: cs =>
    if c.socket_fd ≠ -1 then
      if client_timed_out now c then
        ((check_sensor_timeouts_pass now cs).1,
         c :: (check_sensor_timeouts_pass now cs).2)
      else
        (c :: (check_sensor_timeouts_pass now cs).1,
         (check_sensor_timeouts_pass now cs).2)
    else
      (c :: (check_sensor_timeouts_pass now cs).1,
       (check_sensor_timeouts_pass now cs).2)

theorem check_sensor_timeouts_pass_eq (now : Int) :
    ∀ cs : List client_info_t,
      check_sensor_timeouts_pass now cs
        = (cs.filter (fun c2 =>
             !(decide (c2.socket_fd ≠ -1) && client_timed_out now c2)),
           cs.filter (fun c2 =>
             decide (c2.socket_fd ≠ -1) && client_timed_out now c2)) := by
  intro cs
  induction cs with
  | nil => rfl
  | cons c cs ih =>
    by_cases ha : c.socket_fd ≠ -1
    · by_cases ht : client_timed_out now c = true
      · simp [check_sensor_timeouts_pass, ih, List.filter_cons, ha, ht]
      · simp [check_sensor_timeouts_pass, ih, List.filter_cons, ha, ht]
    · have ha2 : c.socket_fd = -1 := not_not.mp ha
      simp [check_sensor_timeouts_pass, ih, List.filter_cons, ha2]

/-- C7: the idle-timeout pass closes an active client exactly when
now - last_activity is strictly greater than SENSOR_TIMEOUT_SEC, and never
when the idle time equals SENSOR_TIMEOUT_SEC. -/
theorem c7_idle_timeout_strict (now : Int) (cs : List client_info_t)
    (c : client_info_t) :
    (check_sensor_timeouts_pass now cs).2
      = cs.filter (fun c2 =>
          decide (c2.socket_fd ≠ -1) && client_timed_out now c2) ∧
    (check_sensor_timeouts_pass now cs).1
      = cs.filter (fun c2 =>
          !(decide (c2.socket_fd ≠ -1) && client_timed_out now c2)) ∧
    (client_timed_out now c = true ↔
      SENSOR_TIMEOUT_SEC < now - c.last_active_ts) ∧
    (now - c.last_active_ts = SENSOR_TIMEOUT_SEC →
      client_timed_out now c = false) := by
  refine ⟨?_, ?_, ?_, ?_⟩
  · rw [check_sensor_timeouts_pass_eq]
  · rw [check_sensor_timeouts_pass_eq]
  · simp [client_timed_out]
  · intro h
    unfold client_timed_out
    rw [h]
    simp

/-- Witness for C7: at now = 100, a client last active at 95 (idle exactly
SENSOR_TIMEOUT_SEC) is not timed out, and the pass over a two-client table
closes exactly the clients matching the strict test. -/
theorem c7_idle_timeout_strict_witness :
    client_timed_out 100 ⟨3, 1, 95, true⟩ = false ∧
    (check_sensor_timeouts_pass 100
      [⟨3, 1, 95, true⟩, ⟨4, 2, 94, true⟩]).2
      = [⟨3, 1, 95, true⟩, ⟨4, 2, 94, true⟩].filter
          (fun c2 => decide (c2.socket_fd ≠ -1) && client_timed_out 100 c2) :=
  ⟨(c7_idle_timeout_strict 100 [] ⟨3, 1, 95, true⟩).2.2.2 (by decide),
   (c7_idle_timeout_strict 100 [⟨3, 1, 95, true⟩, ⟨4, 2, 94, true⟩]
      ⟨3, 1, 95, true⟩).1⟩

/-! Section: Storage retry queue (storagemgt.c) -/

/-- RETRY_QUEUE_INITIAL_CAPACITY from storagemgt.c. -/
def RETRY_QUEUE_INITIAL_CAPACITY : Nat := 20

/-- Embedding of local_retry_queue_t from storagemgt.c: circular array,
count, capacity, head (read index), tail (write index). -/
structure local_retry_queue_t where
  items : Nat → sensor_data_t
  count : Nat
  capacity : Nat
  head : Nat
  tail : Nat

/-- The static retry_queue together with the queue_initialized flag of
storagemgt.c (named queue_ready here). -/
structure storage_queue_state where
  retry_queue : local_retry_queue_t
  queue_ready : Bool

/-- Log lines of the retry-queue helpers (storagemgt.c lines 396-439). -/
inductive storage_log_event where
  | warn_full (capacity : Nat)
  | warn_dropped (id : Nat) (ts : Int)
  | error_drop_failed
  | debug_enqueued (id : Nat) (count : Nat)
  | debug_dequeued (id : Nat) (count : Nat)
deriving DecidableEq

def storage_log_event.level : storage_log_event → log_level
  | .warn_full _ => .WARNING
  | .warn_dropped _ _ => .WARNING
  | .error_drop_failed => .ERROR
  | .debug_enqueued _ _ => .DEBUG
  | .debug_dequeued _ _ => .DEBUG

/-- Number of WARNING-level lines in a log fragment. -/
def warn_count (logs : List storage_log_event) : Nat :=
  (logs.filter (fun e => e.level == log_level.WARNING)).length

/-- Embedding of is_retry_queue_empty (storagemgt.c lines 377-379). -/
def is_retry_queue_empty (st : storage_queue_state) : Bool :=
  !st.queue_ready || decide (st.retry_queue.count = 0)

/-- Embedding of is_retry_queue_full (storagemgt.c lines 386-388). -/
def is_retry_queue_full (st : storage_queue_state) : Bool :=
  st.queue_ready && decide (st.retry_queue.capacity ≤ st.retry_queue.count)

/-- Embedding of dequeue_retry_item (storagemgt.c lines 426-439): pop the
oldest item at head.  The NULL check on the out-pointer is omitted: every
call site passes a valid address. -/
def dequeue_retry_item (st : storage_queue_state) :
    gateway_error_t × Option sensor_data_t × storage_queue_state ×
      List storage_log_event :=
  if !st.queue_ready || is_retry_queue_empty st then
    (.GATEWAY_ERROR_INVALID_ARG, none, st, [])
  else
    (.GATEWAY_SUCCESS, some (st.retry_queue.items st.retry_queue.head),
     { st with retry_queue :=
        { st.retry_queue with
          head := (st.retry_queue.head + 1) % st.retry_queue.capacity
          count := st.retry_queue.count - 1 } },
     [.debug_dequeued (st.retry_queue.items st.retry_queue.head).id
        (st.retry_queue.count - 1)])

/-- Tail append of enqueue_retry_item (storagemgt.c lines 413-417). -/
def retry_append (st : storage_queue_state) (d : sensor_data_t) :
    storage_queue_state × storage_log_event :=
  ({ st with retry_queue :=
      { st.retry_queue with
        items := fun j => if j = st.retry_queue.tail then d
          else st.retry_queue.items j
        tail := (st.retry_queue.tail + 1) % st.retry_queue.capacity
        count := st.retry_queue.count + 1 } },
   .debug_enqueued d.id (st.retry_queue.count + 1))

/-- Embedding of enqueue_retry_item (storagemgt.c lines 396-418): on a
full queue, log a WARNING, drop the oldest item via dequeue, log a second
WARNING naming the dropped item, then append the new item at tail. -/
def enqueue_retry_item (st : storage_queue_state)
    (d : Option sensor_data_t) :
    gateway_error_t × storage_queue_state × List storage_log_event :=
  if !st.queue_ready then (.GATEWAY_ERROR, st, [])
  else
    match d with
    | none => (.GATEWAY_ERROR_INVALID_ARG, st, [])
    | some dd =>
      if is_retry_queue_full st then
        match dequeue_retry_item st with
        | (e, dummy, st2, logs) =>
          if e ≠ .GATEWAY_SUCCESS then
            (.GATEWAY_ERROR, st2,
             .warn_full st.retry_queue.capacity :: logs
               ++ [.error_drop_failed])
          else
            match dummy with
            | some du =>
              (.GATEWAY_SUCCESS, (retry_append st2 dd).1,
               .warn_full st.retry_queue.capacity :: logs
                 ++ [.warn_dropped du.id du.ts, (retry_append st2 dd).2])
            | none =>
              (.GATEWAY_SUCCESS, (retry_append st2 dd).1,
               .warn_full st.retry_queue.capacity :: logs
                 ++ [(retry_append st2 dd).2])
      else
        (.GATEWAY_SUCCESS, (retry_append st dd).1, [(retry_append st dd).2])

/-- Abstraction of the retry queue as the list of queued readings, oldest
first. -/
def retry_contents (q : local_retry_queue_t) : List sensor_data_t :=
  cq_contents q.items q.capacity q.head q.count

/-- Structural well-formedness of the retry queue as maintained by
init_retry_queue, enqueue_retry_item and dequeue_retry_item. -/
def retry_wf (q : local_retry_queue_t) : Prop :=
  q.head < q.capacity ∧ q.count ≤ q.capacity ∧
    q.tail = (q.head + q.count) % q.capacity

/-- Concrete full retry queue (capacity 2, both slots occupied) for the
C3 counterexample. -/
def c3_full_queue : storage_queue_state :=
  { retry_queue :=
      { items := fun _ => ⟨5, 20, 50⟩, count := 2, capacity := 2,
        head := 0, tail := 0 },
    queue_ready := true }

/-- Reading arriving at the full retry queue in the C3 counterexample. -/
def c3_new_item : sensor_data_t := ⟨6, 21, 60⟩

/-- C3 counterexample: an enqueue onto a full retry queue emits two
WARNING-level log lines per discard (the "Retry queue full" line and the
"Dropped item" line), not exactly one. -/
theorem c3_retry_overflow_two_warns_cex :
    warn_count (enqueue_retry_item c3_full_queue (some c3_new_item)).2.2
      = 2 ∧
    (2 : Nat) ≠ 1 ∧
    (enqueue_retry_item c3_full_queue (some c3_new_item)).1
      = .GATEWAY_SUCCESS ∧
    (enqueue_retry_item c3_full_queue (some c3_new_item)).2.2.map
      storage_log_event.level
      = [.WARNING, .DEBUG, .WARNING, .DEBUG] := by
  refine ⟨rfl, by decide, rfl, rfl⟩

/-- C3 amended: for every enqueue onto the retry queue at capacity, the
oldest element (the head) is discarded, the new element is accepted at the
tail, the call succeeds, and exactly two WARN-level log lines are emitted
per discard. -/
theorem c3_retry_overflow_drop_oldest (st : storage_queue_state)
    (d : sensor_data_t) (hready : st.queue_ready = true)
    (hwf : retry_wf st.retry_queue)
    (hfull : st.retry_queue.count = st.retry_queue.capacity) :
    (enqueue_retry_item st (some d)).1 = .GATEWAY_SUCCESS ∧
    retry_contents (enqueue_retry_item st (some d)).2.1.retry_queue
      = (retry_contents st.retry_queue).tail ++ [d] ∧
    retry_contents st.retry_queue
      = st.retry_queue.items st.retry_queue.head ::
          (retry_contents st.retry_queue).tail ∧
    warn_count (enqueue_retry_item st (some d)).2.2 = 2 ∧
    ((enqueue_retry_item st (some d)).2.2.map storage_log_event.level)
      = [.WARNING, .DEBUG, .WARNING, .DEBUG] ∧
    (enqueue_retry_item st (some d)).2.1.retry_queue.count
      = st.retry_queue.capacity := by
  obtain ⟨hhead, hcnt, htail⟩ := hwf
  have hcap : 0 < st.retry_queue.capacity :=
    lt_of_le_of_lt (Nat.zero_le _) hhead
  have hne0 : st.retry_queue.count ≠ 0 := by omega
  have hempty : is_retry_queue_empty st = false := by
    simp [is_retry_queue_empty, hready, hne0]
  have hfullb : is_retry_queue_full st = true := by
    simp [is_retry_queue_full, hready, hfull]
  have hcond : (!st.queue_ready || is_retry_queue_empty st) = false := by
    simp [hready, hempty]
  have hdeq : dequeue_retry_item st
      = (.GATEWAY_SUCCESS,
         some (st.retry_queue.items st.retry_queue.head),
         { st with retry_queue :=
            { st.retry_queue with
              head := (st.retry_queue.head + 1) % st.retry_queue.capacity
              count := st.retry_queue.count - 1 } },
         [.debug_dequeued (st.retry_queue.items st.retry_queue.head).id
            (st.retry_queue.count - 1)]) := by
    unfold dequeue_retry_item
    rw [hcond]
    simp
  have henq : enqueue_retry_item st (some d)
      = (.GATEWAY_SUCCESS,
         (retry_append
           { st with retry_queue :=
              { st.retry_queue with
                head := (st.retry_queue.head + 1) % st.retry_queue.capacity
                count := st.retry_queue.count - 1 } } d).1,
         [.warn_full st.retry_queue.capacity,
          .debug_dequeued (st.retry_queue.items st.retry_queue.head).id
            (st.retry_queue.count - 1),
          .warn_dropped (st.retry_queue.items st.retry_queue.head).id
            (st.retry_queue.items st.retry_queue.head).ts,
          (retry_append
            { st with retry_queue :=
               { st.retry_queue with
                 head := (st.retry_queue.head + 1) % st.retry_queue.capacity
                 count := st.retry_queue.count - 1 } } d).2]) := by
    unfold enqueue_retry_item
    have hnr : (!st.queue_ready) = false := by rw [hready]; rfl
    rw [hnr]
    simp only [Bool.false_eq_true, if_false]
    rw [hfullb]
    simp only [if_true, hdeq]
    simp
  have hpop : retry_contents st.retry_queue
      = st.retry_queue.items st.retry_queue.head ::
          cq_contents st.retry_queue.items st.retry_queue.capacity
            ((st.retry_queue.head + 1) % st.retry_queue.capacity)
            (st.retry_queue.count - 1) := by
    unfold retry_contents
    obtain ⟨c, hc⟩ : ∃ c, st.retry_queue.count = c + 1 :=
      ⟨st.retry_queue.count - 1, by omega⟩
    rw [hc]
    rw [cq_contents_pop st.retry_queue.items st.retry_queue.capacity
      st.retry_queue.head c hhead]
    simp [hc]
  have htail2 : st.retry_queue.tail
      = ((st.retry_queue.head + 1) % st.retry_queue.capacity
          + (st.retry_queue.count - 1)) % st.retry_queue.capacity := by
    rw [htail, Nat.mod_add_mod]
    congr 1
    omega
  refine ⟨by rw [henq], ?_, ?_, by rw [henq]; rfl, by rw [henq]; rfl, ?_⟩
  · rw [henq, hpop]
    simp only [List.tail_cons]
    show cq_contents (fun j => if j = st.retry_queue.tail then d
        else st.retry_queue.items j) st.retry_queue.capacity
        ((st.retry_queue.head + 1) % st.retry_queue.capacity)
        (st.retry_queue.count - 1 + 1) = _
    rw [htail2]
    exact cq_contents_push st.retry_queue.items st.retry_queue.capacity
      ((st.retry_queue.head + 1) % st.retry_queue.capacity)
      (st.retry_queue.count - 1) d (by omega)
  · rw [hpop]
    simp
  · rw [henq]
    show st.retry_queue.count - 1 + 1 = st.retry_queue.capacity
    omega

/-- Witness for the amended C3 at the concrete full queue. -/
theorem c3_retry_overflow_drop_oldest_witness :
    (enqueue_retry_item c3_full_queue (some c3_new_item)).1
      = .GATEWAY_SUCCESS ∧
    warn_count (enqueue_retry_item c3_full_queue (some c3_new_item)).2.2
      = 2 ∧
    (enqueue_retry_item c3_full_queue
      (some c3_new_item)).2.1.retry_queue.count
      = c3_full_queue.retry_queue.capacity :=
  ⟨(c3_retry_overflow_drop_oldest c3_full_queue c3_new_item rfl
      ⟨by decide, by decide, by decide⟩ rfl).1,
   (c3_retry_overflow_drop_oldest c3_full_queue c3_new_item rfl
      ⟨by decide, by decide, by decide⟩ rfl).2.2.2.1,
   (c3_retry_overflow_drop_oldest c3_full_queue c3_new_item rfl
      ⟨by decide, by decide, by decide⟩ rfl).2.2.2.2.2⟩

/-! Section: C2: process exit status of main (main.c) -/

/-- EXIT_SUCCESS of the C standard library. -/
def EXIT_SUCCESS : Nat := 0

/-- EXIT_FAILURE of the C standard library. -/
def EXIT_FAILURE : Nat := 1

/-- Final return of main (main.c line 405): the process exit status is
EXIT_FAILURE when terminate_flag is set and EXIT_SUCCESS otherwise. -/
def main_final_return (terminate_flag : Bool) : Nat :=
  if terminate_flag then EXIT_FAILURE else EXIT_SUCCESS

/-- Exit status of the clean signal-shutdown path: sigwaitinfo returns
(main.c lines 269-278), terminate_flag is set to 1, the cleanup sequence
runs, and main returns via line 405. -/
def main_exit_code_after_signal : Nat := main_final_return true

/-- Exit status of the path where a manager thread fails to be created:
main jumps to the cleanup label with terminate_flag still 0 (main.c lines
226-262 and 281) and returns via line 405. -/
def main_exit_code_thread_create_failure : Nat := main_final_return false

/-- C2 (code bug): after a clean shutdown triggered by SIGINT or SIGTERM
the process exits with EXIT_FAILURE = 1, not 0, because line 405 of main.c
returns EXIT_FAILURE exactly when terminate_flag is set; symmetrically a
thread-creation startup failure exits with 0.  The inverted ternary
contradicts the documented exit-code contract. -/
theorem c2_exit_code_after_clean_shutdown :
    main_exit_code_after_signal = EXIT_FAILURE ∧
    main_exit_code_after_signal ≠ 0 ∧
    main_exit_code_thread_create_failure = EXIT_SUCCESS ∧
    main_exit_code_thread_create_failure = 0 := by
  refine ⟨rfl, by decide, rfl, rfl⟩

end SensorGateway
